import Mathlib

/-!
Verification development for `syft/formats/spdx22json/to_format_model.go`
(SPDX 2.2 JSON conversion core of an SBOM tool).

The Go source is shallowly embedded below.  Go strings become `String`,
slices become `List`, maps become association lists, the polymorphic
`artifact.Identifiable` relationship endpoints become a closed inductive
type, and the side-channel warning log becomes an explicitly returned
warning list.  The type assertion `p.Metadata.(pkg.JavaMetadata)` (which
panics in Go when the metadata value is of a different shape) is modelled
by returning `Option`.

The `toFormatModel` function in the source contains an unresolved merge
conflict between two document assemblies; both sides are embedded, as
`toFormatModelHEAD` (the HEAD side, which feeds the unsorted
`s.Relationships` to every projection) and `toFormatModelStabilized`
(the side of commit c2005fa, which feeds the sorted list to
`toPackages`/`toRelationships` but never populates
`ExternalDocumentRefs`).

Helpers that live outside the shown file (the `model` identifier
renderers, `internal.IsExecutable`/`IsArchive`, the catalog and
relationship sorts, the `spdxhelpers` projections and constants) are
modelled from the specification and marked as such in their doc comments.
-/

/-- Lexicographic strict comparison of character lists by codepoint. -/
def charListLess : List Char → List Char → Bool
  | [], [] => false
  | [], _ :: _ => true
  | _ :: _, [] => false
  | a :: as, b :: bs =>
    if a.toNat < b.toNat then true
    else if b.toNat < a.toNat then false
    else charListLess as bs

/-- The strict string comparison `a < b` used by the Go sort comparators
(byte-lexicographic in Go; codepoint-lexicographic here, which agrees on
UTF-8 text). -/
def strLess (a b : String) : Bool :=
  charListLess a.data b.data

namespace source

/-- Go type `source.Coordinates`: identity of a file location (real path plus an
optional filesystem/layer identifier). -/
structure Coordinates where
  RealPath : String
  FileSystemID : String
deriving DecidableEq

/-- Modelled from the spec: `Coordinates.ID()` is a deterministic identity
derived from the real path plus the optional filesystem/layer identifier. -/
def Coordinates.ID (c : Coordinates) : String :=
  c.RealPath ++ "@" ++ c.FileSystemID

/-- Go type `source.FileMetadata`: the per-file metadata consulted by the
converter (only the MIME type is read here). -/
structure FileMetadata where
  MIMEType : String
deriving DecidableEq

/-- Modelled from the spec: the source/descriptor record yielding a
document name and namespace. -/
structure Metadata where
  name : String
  uri : String
deriving DecidableEq

end source

namespace file

/-- Go type `file.Digest`: a pre-computed checksum (algorithm name + value). -/
structure Digest where
  Algorithm : String
  Value : String
deriving DecidableEq

end file

namespace rekor

/-- Go type `rekor.SpdxEntry`: checksum and URI of an externally referenced SBOM
document. -/
structure SpdxEntry where
  Alg : String
  Checksum : String
  URI : String
deriving DecidableEq

/-- Go type `rekor.ExternalRef`: a reference to another SBOM document.  Modelled
from the spec: `id` is the stable identity returned by its `ID()` method
(a deterministic, collision-free function of the reference). -/
structure ExternalRef where
  id : String
  SpdxRef : SpdxEntry
deriving DecidableEq

/-- The identity of an external reference (its `ID()` method). -/
def ExternalRef.ID (e : ExternalRef) : String := e.id

end rekor

namespace pkg

/-- Go type `pkg.JavaMetadata`: the one metadata kind whose archive digests are
emitted as package checksums. -/
structure JavaMetadata where
  ArchiveDigests : List file.Digest
deriving DecidableEq

/-- The dynamic value held in `pkg.Package.Metadata` (an `interface{}` in
Go): either Java metadata or anything else. -/
inductive Metadata where
  | java (md : JavaMetadata)
  | other
deriving DecidableEq

/-- Whether the metadata value actually is `pkg.JavaMetadata` (the Go
type assertion `p.Metadata.(pkg.JavaMetadata)` succeeds exactly then). -/
def Metadata.isJava : Metadata → Bool
  | .java _ => true
  | .other => false

/-- Modelled from the spec: the `pkg.MetadataType` constant that marks a
package as carrying Java metadata. -/
def JavaMetadataType : String := "JavaMetadata"

/-- Go type `pkg.Package`: a cataloged package.  `id` is the stable identity
returned by `p.ID()`; the trailing lowercase fields back the simple
`spdxhelpers` projection helpers (pass-through attributes). -/
structure Package where
  id : String
  Name : String
  Version : String
  MetadataType : String
  Metadata : Metadata
  license : String
  description : String
  downloadLocation : String
  homepage : String
  originator : String
  sourceInfo : String
  externalRefs : List String
deriving DecidableEq

/-- Go type `pkg.Catalog`: the package catalog (its enumerable contents). -/
abbrev Catalog := List Package

/-- Modelled from the spec: the strict comparator of the catalog's
canonical sort order — by name, ties broken by identity. -/
def pkgLess (a b : Package) : Bool :=
  if a.Name = b.Name then strLess a.id b.id
  else strLess a.Name b.Name

/-- Modelled from the spec: `catalog.Sorted()` enumerates the packages in
the canonical sort order (by name, then tie-broken by identity), stably
and independently of insertion order. -/
def Catalog.Sorted (catalog : Catalog) : List Package :=
  List.insertionSort (fun a b => pkgLess b a = false) catalog

end pkg

namespace artifact

/-- Go constant `artifact.ContainsRelationship`. -/
def ContainsRelationship : String := "contains"

/-- Go constant `artifact.OwnershipByFileOverlapRelationship`. -/
def OwnershipByFileOverlapRelationship : String := "ownership-by-file-overlap"

/-- Go constant `artifact.DependencyOfRelationship`. -/
def DependencyOfRelationship : String := "dependency-of"

/-- Go constant `artifact.DescribedByRelationship`. -/
def DescribedByRelationship : String := "described-by"

/-- A relationship endpoint (`artifact.Identifiable` in Go): one of a
package, file coordinates, or an external document reference.  A package
endpoint carries the package identity `p.ID()` (the only thing the
converter reads from it). -/
inductive Endpoint where
  | pkg (id : String)
  | coordinates (c : source.Coordinates)
  | externalRef (ref : rekor.ExternalRef)
deriving DecidableEq

/-- The `ID()` of an endpoint. -/
def Endpoint.ID : Endpoint → String
  | .pkg id => id
  | .coordinates c => c.ID
  | .externalRef e => e.ID

/-- The Go type assertion `_, ok := x.(pkg.Package)`. -/
def Endpoint.isPackage : Endpoint → Bool
  | .pkg _ => true
  | _ => false

/-- The Go type assertion `_, ok := x.(source.Coordinates)`. -/
def Endpoint.isCoordinates : Endpoint → Bool
  | .coordinates _ => true
  | _ => false

/-- The Go type assertion `_, ok := x.(rekor.ExternalRef)`. -/
def Endpoint.isExternalRef : Endpoint → Bool
  | .externalRef _ => true
  | _ => false

/-- Go type `artifact.Relationship`: an ordered pair of endpoints plus a kind.
The Go field `Type` is called `Typ` here (`Type` is a Lean keyword). -/
structure Relationship where
  From : Endpoint
  To : Endpoint
  Typ : String
deriving DecidableEq

end artifact

namespace internal

/-- Go constant `internal.ApplicationName`. -/
def ApplicationName : String := "syft"

/-- Modelled from the spec: the fixed set of MIME types recognized as
executable binaries by `internal.IsExecutable`. -/
def executableMimeTypes : List String :=
  ["application/x-executable", "application/x-mach-binary",
   "application/x-elf", "application/x-sharedlib",
   "application/vnd.microsoft.portable-executable"]

/-- Modelled from the spec: `internal.IsExecutable` — membership of the
MIME type in the fixed executable set. -/
def IsExecutable (mimeType : String) : Bool :=
  executableMimeTypes.contains mimeType

/-- Modelled from the spec: the fixed set of MIME types recognized as
archive containers by `internal.IsArchive`. -/
def archiveMimeTypes : List String :=
  ["application/zip", "application/x-tar", "application/gzip",
   "application/x-rar-compressed", "application/x-7z-compressed"]

/-- Modelled from the spec: `internal.IsArchive` — membership of the MIME
type in the fixed archive set. -/
def IsArchive (mimeType : String) : Bool :=
  archiveMimeTypes.contains mimeType

end internal

namespace spdxlicense

/-- Modelled from the spec: the license-list version string supplied by
the external license data source. -/
def Version : String := "3.18"

end spdxlicense

namespace spdxhelpers

/-- Modelled from the spec: output relationship kind `CONTAINS`. -/
def ContainsRelationship : String := "CONTAINS"

/-- Modelled from the spec: generic output relationship kind `OTHER`. -/
def OtherRelationship : String := "OTHER"

/-- Modelled from the spec: output relationship kind `DEPENDENCY_OF`. -/
def DependencyOfRelationship : String := "DEPENDENCY_OF"

/-- Modelled from the spec: output relationship kind `DESCRIBED_BY`. -/
def DescribedByRelationship : String := "DESCRIBED_BY"

/-- Modelled from the spec: SPDX file type tag `IMAGE`. -/
def ImageFileType : String := "IMAGE"

/-- Modelled from the spec: SPDX file type tag `VIDEO`. -/
def VideoFileType : String := "VIDEO"

/-- Modelled from the spec: SPDX file type tag `APPLICATION`. -/
def ApplicationFileType : String := "APPLICATION"

/-- Modelled from the spec: SPDX file type tag `TEXT`. -/
def TextFileType : String := "TEXT"

/-- Modelled from the spec: SPDX file type tag `AUDIO`. -/
def AudioFileType : String := "AUDIO"

/-- Modelled from the spec: SPDX file type tag `BINARY`. -/
def BinaryFileType : String := "BINARY"

/-- Modelled from the spec: SPDX file type tag `ARCHIVE`. -/
def ArchiveFileType : String := "ARCHIVE"

/-- Modelled from the spec: SPDX file type tag `OTHER`. -/
def OtherFileType : String := "OTHER"

/-- Modelled from the spec: the package license value, computed once and
used for both the concluded and declared license fields (a pass-through
projection of the package's license evidence). -/
def License (p : pkg.Package) : String := p.license

/-- Modelled from the spec: pass-through projection. -/
def Description (p : pkg.Package) : String := p.description

/-- Modelled from the spec: pass-through projection. -/
def DownloadLocation (p : pkg.Package) : String := p.downloadLocation

/-- Modelled from the spec: pass-through projection. -/
def ExternalRefs (p : pkg.Package) : List String := p.externalRefs

/-- Modelled from the spec: pass-through projection. -/
def Homepage (p : pkg.Package) : String := p.homepage

/-- Modelled from the spec: pass-through projection. -/
def Originator (p : pkg.Package) : String := p.originator

/-- Modelled from the spec: pass-through projection. -/
def SourceInfo (p : pkg.Package) : String := p.sourceInfo

/-- Modelled from the spec: document name and namespace derived from the
source descriptor. -/
def DocumentNameAndNamespace (m : source.Metadata) : String × String :=
  (m.name, m.uri)

end spdxhelpers

namespace model

/-- Modelled from the spec: the SPDX version tag of the target schema. -/
def Version : String := "SPDX-2.2"

/-- Modelled from the spec: `model.ElementID(id).String()` — the plain
SPDX element identifier form. -/
def ElementID (id : String) : String := "SPDXRef-" ++ id

/-- Modelled from the spec: `model.DocElementID(id).String()` — the
document-qualified (document-reference-ID-qualified) identifier form. -/
def DocElementID (id : String) : String := "DocumentRef-" ++ id

/-- Go type `model.Checksum`. -/
structure Checksum where
  Algorithm : String
  ChecksumValue : String
deriving DecidableEq

/-- Go type `model.ExternalDocumentRef`. -/
structure ExternalDocumentRef where
  ExternalDocumentID : String
  Checksum : Checksum
  SpdxDocument : String
deriving DecidableEq

/-- Go type `model.Relationship`. -/
structure Relationship where
  SpdxElementID : String
  RelationshipType : String
  RelatedSpdxElement : String
  Comment : String
deriving DecidableEq

/-- Go type `model.File` (the fields populated by this converter). -/
structure File where
  SPDXID : String
  Comment : String
  LicenseConcluded : String
  Checksums : List Checksum
  FileName : String
  FileTypes : List String
deriving DecidableEq

/-- Go type `model.Package` (the fields populated by this converter). -/
structure Package where
  SPDXID : String
  Name : String
  Checksums : List Checksum
  Description : String
  DownloadLocation : String
  ExternalRefs : List String
  FilesAnalyzed : Bool
  HasFiles : List String
  Homepage : String
  LicenseDeclared : String
  LicenseConcluded : String
  Originator : String
  SourceInfo : String
  VersionInfo : String
deriving DecidableEq

/-- Go type `model.CreationInfo`.  The creation timestamp (`time.Now().UTC()` in
Go) is threaded in as an explicit argument of the document builders. -/
structure CreationInfo where
  Created : String
  Creators : List String
  LicenseListVersion : String
deriving DecidableEq

/-- Go type `model.Document`. -/
structure Document where
  SPDXID : String
  Name : String
  SPDXVersion : String
  CreationInfo : CreationInfo
  DataLicense : String
  ExternalDocumentRefs : List ExternalDocumentRef
  DocumentNamespace : String
  Packages : List Package
  Files : List File
  Relationships : List Relationship
deriving DecidableEq

end model

namespace sbom

/-- Go type `sbom.Artifacts`: catalog plus the per-coordinate lookup tables,
modelled as association lists. -/
structure Artifacts where
  PackageCatalog : pkg.Catalog
  FileMetadata : List (source.Coordinates × source.FileMetadata)
  FileDigests : List (source.Coordinates × List file.Digest)
deriving DecidableEq

/-- The application descriptor (`s.Descriptor`). -/
structure Descriptor where
  Version : String
deriving DecidableEq

/-- Go type `sbom.SBOM`: the input aggregate.  `Coordinates` backs the
`AllCoordinates()` enumeration (modelled from the spec: the enumerable
set of all file coordinates referenced anywhere in the SBOM). -/
structure SBOM where
  Artifacts : Artifacts
  Relationships : List artifact.Relationship
  Coordinates : List source.Coordinates
  Source : source.Metadata
  Descriptor : Descriptor
deriving DecidableEq

/-- Modelled from the spec: `s.AllCoordinates()`. -/
def SBOM.AllCoordinates (s : SBOM) : List source.Coordinates :=
  s.Coordinates

/-- Modelled from the spec: the strict comparator of the canonical
relationship order (by from-identity, then to-identity, then kind). -/
def relLess (a b : artifact.Relationship) : Bool :=
  if a.From.ID = b.From.ID then
    if a.To.ID = b.To.ID then strLess a.Typ b.Typ
    else strLess a.To.ID b.To.ID
  else strLess a.From.ID b.From.ID

/-- Modelled from the spec: the canonical relationship sort — a stable,
deterministic ordering of a relationship list, independent of the
collection's native iteration order. -/
def sortedRelationships (relationships : List artifact.Relationship) :
    List artifact.Relationship :=
  List.insertionSort (fun a b => relLess b a = false) relationships

/-- Modelled from the spec: `s.RelationshipsSorted()`. -/
def SBOM.RelationshipsSorted (s : SBOM) : List artifact.Relationship :=
  sortedRelationships s.Relationships

end sbom

/-! The converter itself (`to_format_model.go`). -/

/-- Go function `toChecksumAlgorithm`: uppercase the algorithm name
(`strings.ToUpper`). -/
def toChecksumAlgorithm (algorithm : String) : String :=
  String.mk (algorithm.data.map Char.toUpper)

/-- Go function `isValidExternalRelationshipDocument`: returns whether `rel` holds a
handleable `ExternalRef`, together with the error (`Option String`) the
Go version returns.  Note the Go code formats the local constant
`relationshipType` (always `described-by`) into the error message, not
`rel.Type`. -/
def isValidExternalRelationshipDocument (rel : artifact.Relationship) :
    Bool × Option String :=
  match rel.From with
  | .externalRef _ =>
    (false, some "syft cannot handle an ExternalRef in the FROM field of a relationship")
  | _ =>
    match rel.To with
    | .externalRef externalRef =>
      let relationshipType := artifact.DescribedByRelationship
      if rel.Typ = relationshipType ∧
          toChecksumAlgorithm externalRef.SpdxRef.Alg = "SHA1" then
        (true, none)
      else
        (false, some ("syft cannot handle an ExternalRef with relationship type: " ++ relationshipType))
    | _ => (false, none)

/-- Go function `toExternalDocumentRefs`: the external-document-reference list, plus
the `log.Warnf` side channel as an explicit list of (relationship, error)
pairs. -/
def toExternalDocumentRefs : List artifact.Relationship →
    List model.ExternalDocumentRef × List (artifact.Relationship × String)
  | [] => ([], [])
  | rel :: relationships =>
    let rest := toExternalDocumentRefs relationships
    match isValidExternalRelationshipDocument rel with
    | (_, some err) => (rest.1, (rel, err) :: rest.2)
    | (valid, none) =>
      if valid then
        match rel.To with
        | .externalRef externalRef =>
          ({ ExternalDocumentID := model.DocElementID rel.To.ID
             Checksum :=
               { Algorithm := toChecksumAlgorithm externalRef.SpdxRef.Alg
                 ChecksumValue := externalRef.SpdxRef.Checksum }
             SpdxDocument := externalRef.SpdxRef.URI } :: rest.1, rest.2)
        | _ => rest
      else rest

/-- Go function `fileIDsForPackage`: the file IDs of every `contains` relationship
from a package with the given SPDX ID to a file coordinate. -/
def fileIDsForPackage (packageSpdxID : String) :
    List artifact.Relationship → List String
  | [] => []
  | relationship :: rest =>
    if relationship.Typ ≠ artifact.ContainsRelationship then
      fileIDsForPackage packageSpdxID rest
    else if relationship.From.isPackage = false then
      fileIDsForPackage packageSpdxID rest
    else if relationship.To.isCoordinates = false then
      fileIDsForPackage packageSpdxID rest
    else if model.ElementID relationship.From.ID = packageSpdxID then
      model.ElementID relationship.To.ID :: fileIDsForPackage packageSpdxID rest
    else
      fileIDsForPackage packageSpdxID rest

/-- The body of the `toPackages` loop for one package.  The Go type
assertion `p.Metadata.(pkg.JavaMetadata)` panics when the package is
marked Java-typed but carries different metadata; that outcome is
`none`. -/
def toPackageRecord (relationships : List artifact.Relationship)
    (p : pkg.Package) : Option model.Package :=
  let license := spdxhelpers.License p
  let packageSpdxID := model.ElementID p.id
  let build := fun (filesAnalyzed : Bool) (checksums : List model.Checksum) =>
    ({ Checksums := checksums
       Description := spdxhelpers.Description p
       DownloadLocation := spdxhelpers.DownloadLocation p
       ExternalRefs := spdxhelpers.ExternalRefs p
       FilesAnalyzed := filesAnalyzed
       HasFiles := fileIDsForPackage packageSpdxID relationships
       Homepage := spdxhelpers.Homepage p
       LicenseDeclared := license
       Originator := spdxhelpers.Originator p
       SourceInfo := spdxhelpers.SourceInfo p
       VersionInfo := p.Version
       LicenseConcluded := license
       SPDXID := packageSpdxID
       Name := p.Name } : model.Package)
  if p.MetadataType = pkg.JavaMetadataType then
    match p.Metadata with
    | .java javaMetadata =>
      if javaMetadata.ArchiveDigests.length > 0 then
        some (build true (javaMetadata.ArchiveDigests.map (fun digest =>
          { Algorithm := String.mk (digest.Algorithm.data.map Char.toUpper)
            ChecksumValue := digest.Value })))
      else some (build false [])
    | .other => none
  else some (build false [])

/-- The `toPackages` loop over the sorted catalog. -/
def toPackagesList (relationships : List artifact.Relationship) :
    List pkg.Package → Option (List model.Package)
  | [] => some []
  | p :: rest =>
    match toPackageRecord relationships p, toPackagesList relationships rest with
    | some mp, some mps => some (mp :: mps)
    | _, _ => none

/-- Go function `toPackages`. -/
def toPackages (catalog : pkg.Catalog)
    (relationships : List artifact.Relationship) :
    Option (List model.Package) :=
  toPackagesList relationships (pkg.Catalog.Sorted catalog)

/-- Association-list lookup standing in for the Go map accesses
`artifacts.FileMetadata[coordinates]` and
`artifacts.FileDigests[coordinates]`. -/
def alookup {β : Type} (m : List (source.Coordinates × β))
    (c : source.Coordinates) : Option β :=
  match m with
  | [] => none
  | (k, v) :: rest => if k = c then some v else alookup rest c

/-- Go function `toFileChecksums`. -/
def toFileChecksums (digests : List file.Digest) : List model.Checksum :=
  digests.map (fun digest =>
    { Algorithm := toChecksumAlgorithm digest.Algorithm
      ChecksumValue := digest.Value })

/-- The leading segment of a string before the first slash, i.e. the Go
expression splitting on slashes and taking the first part. -/
def headSegment (s : String) : String :=
  String.mk (s.data.takeWhile (· ≠ '/'))

/-- Go function `toFileTypes`. -/
def toFileTypes (metadata : Option source.FileMetadata) : List String :=
  match metadata with
  | none => []
  | some metadata =>
    let mimeTypeSplit := headSegment metadata.MIMEType
    let primary : List String :=
      if mimeTypeSplit = "image" then [spdxhelpers.ImageFileType]
      else if mimeTypeSplit = "video" then [spdxhelpers.VideoFileType]
      else if mimeTypeSplit = "application" then [spdxhelpers.ApplicationFileType]
      else if mimeTypeSplit = "text" then [spdxhelpers.TextFileType]
      else if mimeTypeSplit = "audio" then [spdxhelpers.AudioFileType]
      else []
    let withBinary :=
      if internal.IsExecutable metadata.MIMEType then
        primary ++ [spdxhelpers.BinaryFileType]
      else primary
    let withArchive :=
      if internal.IsArchive metadata.MIMEType then
        withBinary ++ [spdxhelpers.ArchiveFileType]
      else withBinary
    if withArchive.length = 0 then [spdxhelpers.OtherFileType]
    else withArchive

/-- The comparator of the `sort.SliceStable` call in `toFiles`: ascending
by file name, ties broken by SPDX identifier. -/
def fileLess (a b : model.File) : Bool :=
  if a.FileName = b.FileName then strLess a.SPDXID b.SPDXID
  else strLess a.FileName b.FileName

/-- Go function `toFiles`. -/
def toFiles (s : sbom.SBOM) : List model.File :=
  let artifacts := s.Artifacts
  let results := s.AllCoordinates.map (fun coordinates =>
    let metadata := alookup artifacts.FileMetadata coordinates
    let digests := (alookup artifacts.FileDigests coordinates).getD []
    let comment :=
      if coordinates.FileSystemID ≠ "" then
        "layerID: " ++ coordinates.FileSystemID
      else ""
    ({ SPDXID := model.ElementID coordinates.ID
       Comment := comment
       LicenseConcluded := "NOASSERTION"
       Checksums := toFileChecksums digests
       FileName := coordinates.RealPath
       FileTypes := toFileTypes metadata } : model.File))
  List.insertionSort (fun a b => fileLess b a = false) results

/-- Go function `lookupRelationship`: maps an internal relationship kind to
(exists, output kind, comment). -/
def lookupRelationship (ty : String) : Bool × String × String :=
  if ty = artifact.ContainsRelationship then
    (true, spdxhelpers.ContainsRelationship, "")
  else if ty = artifact.OwnershipByFileOverlapRelationship then
    (true, spdxhelpers.OtherRelationship,
     ty ++ ": indicates that the parent package claims ownership of a child package since the parent metadata indicates overlap with a location that a cataloger found the child package by")
  else if ty = artifact.DependencyOfRelationship then
    (true, spdxhelpers.DependencyOfRelationship, "")
  else if ty = artifact.DescribedByRelationship then
    (true, spdxhelpers.DescribedByRelationship, "")
  else (false, "", "")

/-- A warning emitted by `toRelationships` (its `log.Warnf` calls):
either an unsupported relationship kind (which logs the input
relationship), or a dropped external relationship (which logs the partly
built output record — before its related element is set — and the
validator's error). -/
inductive RelWarn where
  | unsupported (r : artifact.Relationship)
  | droppedExternal (rel : model.Relationship) (err : String)
deriving DecidableEq

/-- Go function `toRelationships`: the output relationship list plus the warning side
channel. -/
def toRelationships : List artifact.Relationship →
    List model.Relationship × List RelWarn
  | [] => ([], [])
  | r :: relationships =>
    let rest := toRelationships relationships
    match lookupRelationship r.Typ with
    | (false, _, _) => (rest.1, RelWarn.unsupported r :: rest.2)
    | (true, relationshipType, comment) =>
      let rel : model.Relationship :=
        { SpdxElementID := model.ElementID r.From.ID
          RelationshipType := relationshipType
          RelatedSpdxElement := ""
          Comment := comment }
      match isValidExternalRelationshipDocument r with
      | (_, some err) => (rest.1, RelWarn.droppedExternal rel err :: rest.2)
      | (valid, none) =>
        let rel :=
          if valid then
            { rel with RelatedSpdxElement := model.DocElementID r.To.ID }
          else
            { rel with RelatedSpdxElement := model.ElementID r.To.ID }
        (rel :: rest.1, rest.2)

/-- The HEAD side of the unresolved merge conflict in `toFormatModel`:
every projection consumes the unsorted `s.Relationships`, and the sorted
list that the function computes is never used. -/
def toFormatModelHEAD (s : sbom.SBOM) (now : String) : Option model.Document :=
  let nameAndNamespace := spdxhelpers.DocumentNameAndNamespace s.Source
  match toPackages s.Artifacts.PackageCatalog s.Relationships with
  | none => none
  | some packages => some
    { SPDXID := model.ElementID "DOCUMENT"
      Name := nameAndNamespace.1
      SPDXVersion := model.Version
      CreationInfo :=
        { Created := now
          Creators :=
            ["Organization: Anchore, Inc",
             "Tool: " ++ internal.ApplicationName ++ "-" ++ s.Descriptor.Version]
          LicenseListVersion := spdxlicense.Version }
      DataLicense := "CC0-1.0"
      ExternalDocumentRefs := (toExternalDocumentRefs s.Relationships).1
      DocumentNamespace := nameAndNamespace.2
      Packages := packages
      Files := toFiles s
      Relationships := (toRelationships s.Relationships).1 }

/-- The c2005fa ("Stabilize SPDX JSON output sorting") side of the
unresolved merge conflict in `toFormatModel`: `toPackages` and
`toRelationships` consume `s.RelationshipsSorted()`, but the
`ExternalDocumentRefs` field is never populated (its Go zero value is an
empty list). -/
def toFormatModelStabilized (s : sbom.SBOM) (now : String) :
    Option model.Document :=
  let nameAndNamespace := spdxhelpers.DocumentNameAndNamespace s.Source
  let relationships := s.RelationshipsSorted
  match toPackages s.Artifacts.PackageCatalog relationships with
  | none => none
  | some packages => some
    { SPDXID := model.ElementID "DOCUMENT"
      Name := nameAndNamespace.1
      SPDXVersion := model.Version
      CreationInfo :=
        { Created := now
          Creators :=
            ["Organization: Anchore, Inc",
             "Tool: " ++ internal.ApplicationName ++ "-" ++ s.Descriptor.Version]
          LicenseListVersion := spdxlicense.Version }
      DataLicense := "CC0-1.0"
      ExternalDocumentRefs := []
      DocumentNamespace := nameAndNamespace.2
      Packages := packages
      Files := toFiles s
      Relationships := (toRelationships relationships).1 }

/-! Characterization helpers (these follow the specification's wording,
to be compared with the embedded functions). -/

/-- The relationships that `toRelationships` keeps, in the spec's words:
the kind is in the supported vocabulary and the external-reference
validation reports no error. -/
def keepRelationship (r : artifact.Relationship) : Bool :=
  (lookupRelationship r.Typ).1 && (isValidExternalRelationshipDocument r).2.isNone

/-- The output record of a kept relationship, in the spec's words: plain
element identifiers on both sides, except that a valid external
relationship uses the document-qualified form for the related element. -/
def buildRelationship (r : artifact.Relationship) : model.Relationship :=
  { SpdxElementID := model.ElementID r.From.ID
    RelationshipType := (lookupRelationship r.Typ).2.1
    RelatedSpdxElement :=
      if (isValidExternalRelationshipDocument r).1 then
        model.DocElementID r.To.ID
      else model.ElementID r.To.ID
    Comment := (lookupRelationship r.Typ).2.2 }

/-- The relationships contributing to a package's `HasFiles`, in the
spec's words: kind `contains`, `from` a package with this package's SPDX
ID, `to` a file coordinate. -/
def specContainsFileRel (packageSpdxID : String) (r : artifact.Relationship) : Bool :=
  (r.Typ == artifact.ContainsRelationship) && r.From.isPackage &&
    r.To.isCoordinates && (model.ElementID r.From.ID == packageSpdxID)

/-! Concrete inputs used by individual claims. -/

/-- Example for C1: an external reference eligible for inclusion. -/
def c1ext : rekor.ExternalRef := ⟨"extdoc1", ⟨"sha1", "ab", "uri1"⟩⟩

/-- Example for C1 relationship (sorts after the other two). -/
def c1r1 : artifact.Relationship :=
  ⟨.pkg "b", .coordinates ⟨"/f1", ""⟩, artifact.ContainsRelationship⟩

/-- Example for C1 relationship. -/
def c1r2 : artifact.Relationship :=
  ⟨.pkg "a", .coordinates ⟨"/f2", ""⟩, artifact.ContainsRelationship⟩

/-- Example for C1 relationship: a valid external described-by. -/
def c1r3 : artifact.Relationship :=
  ⟨.pkg "a", .externalRef c1ext, artifact.DescribedByRelationship⟩

/-- Example for C1 SBOM whose native relationship order differs from the
canonical sorted order. -/
def c1sbom : sbom.SBOM :=
  { Artifacts := { PackageCatalog := [], FileMetadata := [], FileDigests := [] }
    Relationships := [c1r1, c1r2, c1r3]
    Coordinates := []
    Source := ⟨"doc", "ns"⟩
    Descriptor := ⟨"0.0.1"⟩ }

/-- Counterexample input for C2: the external reference in the `to` endpoint. -/
def c2e : rekor.ExternalRef := ⟨"extdoc", ⟨"sha1", "cafe", "uri-target"⟩⟩

/-- Counterexample input for C2: an external reference sitting in `from`. -/
def c2f : rekor.ExternalRef := ⟨"extsrc", ⟨"sha1", "beef", "uri-src"⟩⟩

/-- C2 counterexample relationship: described-by with an eligible SHA1
`to`-reference, but whose `from` is itself an external reference. -/
def c2bad : artifact.Relationship :=
  ⟨.externalRef c2f, .externalRef c2e, artifact.DescribedByRelationship⟩

/-- Witness input for C2: eligible external reference with mixed-case sha1. -/
def c2w1 : rekor.ExternalRef := ⟨"d1", ⟨"sHa1", "cc", "u1"⟩⟩

/-- Witness input for C2: external reference with a sha256 checksum. -/
def c2w2 : rekor.ExternalRef := ⟨"d2", ⟨"sha256", "cc", "u2"⟩⟩

/-- Witness inputs for C3: a kept relationship, an unsupported one, and a
second kept one after it. -/
def c3keep1 : artifact.Relationship :=
  ⟨.pkg "p", .coordinates ⟨"/x", ""⟩, artifact.ContainsRelationship⟩

/-- Witness input for C3: a relationship of unsupported kind. -/
def c3bad : artifact.Relationship :=
  ⟨.pkg "p", .pkg "q", "evident-by"⟩

/-- Witness input for C3: a second kept relationship. -/
def c3keep2 : artifact.Relationship :=
  ⟨.pkg "q", .pkg "p", artifact.DependencyOfRelationship⟩

/-- Witness relationship list for C3. -/
def c3rels : List artifact.Relationship := [c3keep1, c3bad, c3keep2]

/-- Failing input for C4: the external reference. -/
def c4e : rekor.ExternalRef := ⟨"extdoc4", ⟨"sha1", "dd", "uri4"⟩⟩

/-- Failing input for C4: a `contains` relationship to an external reference
(ineligible kind/algorithm combination with its own kind `contains`). -/
def c4rel : artifact.Relationship :=
  ⟨.pkg "p4", .externalRef c4e, artifact.ContainsRelationship⟩

/-- Witness input for C6: a Java-typed package that really carries Java metadata. -/
def c6javaPkg : pkg.Package :=
  { id := "j1", Name := "lib", Version := "1", MetadataType := "JavaMetadata"
    Metadata := .java ⟨[⟨"sha1", "aa"⟩]⟩, license := "MIT", description := ""
    downloadLocation := "", homepage := "", originator := "", sourceInfo := ""
    externalRefs := [] }

/-- Witness input for C6: an ordinary package. -/
def c6plainPkg : pkg.Package :=
  { id := "p2", Name := "app", Version := "2", MetadataType := ""
    Metadata := .other, license := "MIT", description := ""
    downloadLocation := "", homepage := "", originator := "", sourceInfo := ""
    externalRefs := [] }

/-- Witness SBOM for C6. -/
def c6sbom : sbom.SBOM :=
  { Artifacts :=
      { PackageCatalog := [c6javaPkg, c6plainPkg]
        FileMetadata := [], FileDigests := [] }
    Relationships := [⟨.pkg "j1", .coordinates ⟨"/lib.jar", ""⟩, artifact.ContainsRelationship⟩]
    Coordinates := [⟨"/lib.jar", ""⟩]
    Source := ⟨"doc", "ns"⟩
    Descriptor := ⟨"0.0.1"⟩ }

/-- Failing input for C7: the only cataloged package. -/
def c7pkg : pkg.Package :=
  { id := "p1", Name := "alpha", Version := "1.0", MetadataType := ""
    Metadata := .other, license := "MIT", description := ""
    downloadLocation := "", homepage := "", originator := "", sourceInfo := ""
    externalRefs := [] }

/-- Failing input for C7: first file coordinate. -/
def c7f1 : source.Coordinates := ⟨"/a", ""⟩

/-- Failing input for C7: second file coordinate. -/
def c7f2 : source.Coordinates := ⟨"/b", ""⟩

/-- Failing input for C7: contains relationship to the first coordinate. -/
def c7r1 : artifact.Relationship :=
  ⟨.pkg "p1", .coordinates c7f1, artifact.ContainsRelationship⟩

/-- Failing input for C7: contains relationship to the second coordinate. -/
def c7r2 : artifact.Relationship :=
  ⟨.pkg "p1", .coordinates c7f2, artifact.ContainsRelationship⟩

/-- Failing input for C7: first enumeration order. -/
def c7s1 : sbom.SBOM :=
  { Artifacts := { PackageCatalog := [c7pkg], FileMetadata := [], FileDigests := [] }
    Relationships := [c7r1, c7r2]
    Coordinates := [c7f1, c7f2]
    Source := ⟨"doc", "ns"⟩
    Descriptor := ⟨"0.0.1"⟩ }

/-- Failing input for C7: the logically identical SBOM enumerated in the
opposite order. -/
def c7s2 : sbom.SBOM :=
  { Artifacts := { PackageCatalog := [c7pkg], FileMetadata := [], FileDigests := [] }
    Relationships := [c7r2, c7r1]
    Coordinates := [c7f2, c7f1]
    Source := ⟨"doc", "ns"⟩
    Descriptor := ⟨"0.0.1"⟩ }

/-- Witness input for C8: two contains relationships to distinct coordinates, with
an interleaved non-contains relationship and a foreign-package one. -/
def c8rels : List artifact.Relationship :=
  [⟨.pkg "p1", .coordinates ⟨"/a", ""⟩, artifact.ContainsRelationship⟩,
   ⟨.pkg "p1", .pkg "q", artifact.DependencyOfRelationship⟩,
   ⟨.pkg "q", .coordinates ⟨"/c", ""⟩, artifact.ContainsRelationship⟩,
   ⟨.pkg "p1", .coordinates ⟨"/b", "fs2"⟩, artifact.ContainsRelationship⟩]

/-- Witness package for C8. -/
def c8pkg : pkg.Package :=
  { id := "p1", Name := "alpha", Version := "1.0", MetadataType := ""
    Metadata := .other, license := "MIT", description := ""
    downloadLocation := "", homepage := "", originator := "", sourceInfo := ""
    externalRefs := [] }

/-- Witness input for C8: the package record produced for `c8pkg` over `c8rels`. -/
def c8mp : model.Package :=
  { SPDXID := "SPDXRef-p1", Name := "alpha", Checksums := [], Description := ""
    DownloadLocation := "", ExternalRefs := [], FilesAnalyzed := false
    HasFiles := ["SPDXRef-/a@", "SPDXRef-/b@fs2"], Homepage := ""
    LicenseDeclared := "MIT", LicenseConcluded := "MIT", Originator := ""
    SourceInfo := "", VersionInfo := "1.0" }

/-! Theorems. -/

/-- Claim C1 (code bug): the relationship sort is not performed once and
shared.  On the HEAD side of the unresolved conflict the document's
relationship list and external-document-reference list are computed from
the native-order `s.Relationships` (which differs from the canonical
sorted sequence on this input), while on the stabilized side the
external-document-reference list is never populated even though the
sorted sequence yields a non-empty one. -/
theorem c1_no_single_shared_sort :
    c1sbom.RelationshipsSorted ≠ c1sbom.Relationships
    ∧ (toFormatModelHEAD c1sbom "t").map model.Document.Relationships
        = some (toRelationships c1sbom.Relationships).1
    ∧ (toRelationships c1sbom.Relationships).1
        ≠ (toRelationships c1sbom.RelationshipsSorted).1
    ∧ (toFormatModelHEAD c1sbom "t").map model.Document.ExternalDocumentRefs
        = some (toExternalDocumentRefs c1sbom.Relationships).1
    ∧ (toFormatModelStabilized c1sbom "t").map model.Document.ExternalDocumentRefs
        = some []
    ∧ (toExternalDocumentRefs c1sbom.RelationshipsSorted).1 ≠ [] := by
  decide

/-- Claim C2, counterexample: a relationship whose `to` endpoint is an
eligible external reference (described-by, SHA1) but whose `from` is
itself an external reference produces no external-document-reference
entry and no relationship record, refuting the claim as stated. -/
theorem c2_counterexample_from_external :
    c2bad.Typ = artifact.DescribedByRelationship
    ∧ c2bad.To = .externalRef c2e
    ∧ toChecksumAlgorithm c2e.SpdxRef.Alg = "SHA1"
    ∧ (toExternalDocumentRefs [c2bad]).1 = []
    ∧ (toRelationships [c2bad]).1 = [] := by
  decide

/-- Claim C4 (code bug): an ineligible `to`-external relationship (kind
`contains`) is dropped, but the emitted warning cites the constant
`described-by` kind instead of the relationship's own offending kind. -/
theorem c4_warning_cites_wrong_kind :
    (toRelationships [c4rel]).1 = []
    ∧ (toRelationships [c4rel]).2
        = [RelWarn.droppedExternal
             { SpdxElementID := "SPDXRef-p4", RelationshipType := "CONTAINS"
               RelatedSpdxElement := "", Comment := "" }
             "syft cannot handle an ExternalRef with relationship type: described-by"]
    ∧ (toExternalDocumentRefs [c4rel]).2
        = [(c4rel, "syft cannot handle an ExternalRef with relationship type: described-by")]
    ∧ c4rel.Typ = artifact.ContainsRelationship
    ∧ "syft cannot handle an ExternalRef with relationship type: described-by"
        ≠ "syft cannot handle an ExternalRef with relationship type: " ++ c4rel.Typ := by
  decide

/-- Claim C7 (code bug): two logically identical SBOMs whose relationship
and coordinate collections are enumerated in different orders produce
identical file lists, but on the HEAD side of the conflict different
package lists (their `HasFiles` follow the native relationship order). -/
theorem c7_head_package_list_order_dependent :
    c7s1.Relationships.Perm c7s2.Relationships
    ∧ c7s1.Coordinates.Perm c7s2.Coordinates
    ∧ c7s1.Artifacts = c7s2.Artifacts
    ∧ toFiles c7s1 = toFiles c7s2
    ∧ (toFormatModelHEAD c7s1 "t").map model.Document.Packages
        ≠ (toFormatModelHEAD c7s2 "t").map model.Document.Packages := by
  refine ⟨List.Perm.swap c7r2 c7r1 [], List.Perm.swap c7f2 c7f1 [], by decide, by decide, by decide⟩

/-- A list that falls back to a singleton when empty is never empty. -/
theorem fallbackNonEmpty (l : List String) :
    (if l.length = 0 then [spdxhelpers.OtherFileType] else l) ≠ [] := by
  split
  · simp
  · next h =>
    intro hc
    exact h (by rw [hc]; rfl)

/-- Claim C9: `toFileTypes` returns `[]` without metadata, `["IMAGE"]`
for MIME type `image/png`, exactly `["OTHER"]` when the MIME prefix
matches no category and neither the executable nor the archive check
fires, and is never empty when metadata is present. -/
theorem c9_toFileTypes_spec :
    toFileTypes none = []
    ∧ toFileTypes (some ⟨"image/png"⟩) = ["IMAGE"]
    ∧ (∀ m : source.FileMetadata,
        headSegment m.MIMEType
            ∉ (["image", "video", "application", "text", "audio"] : List String) →
        internal.IsExecutable m.MIMEType = false →
        internal.IsArchive m.MIMEType = false →
        toFileTypes (some m) = ["OTHER"])
    ∧ (∀ m : source.FileMetadata, toFileTypes (some m) ≠ []) := by
  refine ⟨rfl, by decide, ?_, ?_⟩
  · intro m h₁ h₂ h₃
    simp only [List.mem_cons, List.not_mem_nil, or_false, not_or] at h₁
    obtain ⟨n₁, n₂, n₃, n₄, n₅⟩ := h₁
    simp [toFileTypes, n₁, n₂, n₃, n₄, n₅, h₂, h₃, spdxhelpers.OtherFileType]
  · intro m
    simp only [toFileTypes]
    exact fallbackNonEmpty _

/-- Claim C9 witness: a metadata-bearing file with unrecognized MIME
prefix yields exactly `["OTHER"]`, and a metadata-bearing file is never
without a type. -/
theorem c9_witness :
    toFileTypes (some ⟨"font/woff"⟩) = ["OTHER"]
    ∧ toFileTypes (some ⟨"image/png"⟩) ≠ [] :=
  ⟨c9_toFileTypes_spec.2.2.1 ⟨"font/woff"⟩ (by decide) (by decide) (by decide),
   c9_toFileTypes_spec.2.2.2 ⟨"image/png"⟩⟩

/-- Claim C10: `lookupRelationship` maps ownership-by-file-overlap to the
generic `OTHER` output kind with a non-empty synthesized comment, maps
contains / dependency-of / described-by to their dedicated output kinds
with empty comments, and reports every other kind as unsupported. -/
theorem c10_lookupRelationship_spec :
    lookupRelationship artifact.ContainsRelationship
        = (true, spdxhelpers.ContainsRelationship, "")
    ∧ lookupRelationship artifact.DependencyOfRelationship
        = (true, spdxhelpers.DependencyOfRelationship, "")
    ∧ lookupRelationship artifact.DescribedByRelationship
        = (true, spdxhelpers.DescribedByRelationship, "")
    ∧ (lookupRelationship artifact.OwnershipByFileOverlapRelationship).1 = true
    ∧ (lookupRelationship artifact.OwnershipByFileOverlapRelationship).2.1
        = spdxhelpers.OtherRelationship
    ∧ (lookupRelationship artifact.OwnershipByFileOverlapRelationship).2.2 ≠ ""
    ∧ (∀ ty : String,
        ty ≠ artifact.ContainsRelationship →
        ty ≠ artifact.OwnershipByFileOverlapRelationship →
        ty ≠ artifact.DependencyOfRelationship →
        ty ≠ artifact.DescribedByRelationship →
        lookupRelationship ty = (false, "", "")) := by
  refine ⟨by decide, by decide, by decide, by decide, by decide, by decide, ?_⟩
  intro ty h₁ h₂ h₃ h₄
  simp [lookupRelationship, h₁, h₂, h₃, h₄]

/-- Claim C10 witness: an unsupported kind is rejected. -/
theorem c10_witness : lookupRelationship "evident-by" = (false, "", "") :=
  c10_lookupRelationship_spec.2.2.2.2.2.2 "evident-by"
    (by decide) (by decide) (by decide) (by decide)

/-- Splitting lemma: `toRelationships` processes concatenated lists
independently. -/
theorem toRelationships_append (l₁ l₂ : List artifact.Relationship) :
    toRelationships (l₁ ++ l₂) =
      ((toRelationships l₁).1 ++ (toRelationships l₂).1,
       (toRelationships l₁).2 ++ (toRelationships l₂).2) := by
  induction l₁ with
  | nil => simp [toRelationships]
  | cons r t ih =>
    rcases hl : lookupRelationship r.Typ with ⟨ex, rt, c⟩
    cases ex
    · simp [toRelationships, hl, ih]
    · rcases hv : isValidExternalRelationshipDocument r with ⟨v, err⟩
      cases err <;> simp [toRelationships, hl, hv, ih]

/-- Splitting lemma: `toExternalDocumentRefs` processes concatenated lists
independently. -/
theorem toExternalDocumentRefs_append (l₁ l₂ : List artifact.Relationship) :
    toExternalDocumentRefs (l₁ ++ l₂) =
      ((toExternalDocumentRefs l₁).1 ++ (toExternalDocumentRefs l₂).1,
       (toExternalDocumentRefs l₁).2 ++ (toExternalDocumentRefs l₂).2) := by
  induction l₁ with
  | nil => simp [toExternalDocumentRefs]
  | cons r t ih =>
    rcases hv : isValidExternalRelationshipDocument r with ⟨v, err⟩
    cases err
    · cases v
      · simp [toExternalDocumentRefs, hv, ih]
      · cases hTo : r.To <;> simp [toExternalDocumentRefs, hv, hTo, ih]
    · simp [toExternalDocumentRefs, hv, ih]

/-- Claim C5: a relationship whose `from` endpoint is an external
reference contributes, wherever it sits and whatever its kind, neither a
relationship record nor an external-document-reference entry, and the
validator reports for it the dedicated FROM error, which differs from
the ineligible-`to` error. -/
theorem c5_from_external_always_dropped
    (e : rekor.ExternalRef) (t : artifact.Endpoint) (ty : String)
    (pre post : List artifact.Relationship) :
    (toRelationships
        (pre ++ { From := .externalRef e, To := t, Typ := ty } :: post)).1
      = (toRelationships pre).1 ++ (toRelationships post).1
    ∧ (toExternalDocumentRefs
        (pre ++ { From := .externalRef e, To := t, Typ := ty } :: post)).1
      = (toExternalDocumentRefs pre).1 ++ (toExternalDocumentRefs post).1
    ∧ isValidExternalRelationshipDocument
        { From := .externalRef e, To := t, Typ := ty }
      = (false, some "syft cannot handle an ExternalRef in the FROM field of a relationship")
    ∧ ("syft cannot handle an ExternalRef in the FROM field of a relationship" : String)
      ≠ "syft cannot handle an ExternalRef with relationship type: "
          ++ artifact.DescribedByRelationship := by
  refine ⟨?_, ?_, rfl, by decide⟩
  · rw [toRelationships_append]
    have hone : (toRelationships
        [({ From := .externalRef e, To := t, Typ := ty } : artifact.Relationship)]).1 = [] := by
      rcases hl : lookupRelationship ty with ⟨ex, rt, c⟩
      cases ex <;> simp [toRelationships, hl, isValidExternalRelationshipDocument]
    have := toRelationships_append
      [({ From := .externalRef e, To := t, Typ := ty } : artifact.Relationship)] post
    simp only [List.singleton_append] at this
    rw [this]
    simp [hone]
  · rw [toExternalDocumentRefs_append]
    have hone : (toExternalDocumentRefs
        [({ From := .externalRef e, To := t, Typ := ty } : artifact.Relationship)]).1 = [] := by
      simp [toExternalDocumentRefs, isValidExternalRelationshipDocument]
    have := toExternalDocumentRefs_append
      [({ From := .externalRef e, To := t, Typ := ty } : artifact.Relationship)] post
    simp only [List.singleton_append] at this
    rw [this]
    simp [hone]

/-- Claim C3: `toRelationships` drops every relationship of unsupported
kind and records a warning for it, while the kept relationships appear
in the output exactly as the order-preserving filter-and-map of the
input sequence. -/
theorem c3_unsupported_dropped_order_preserved
    (rels : List artifact.Relationship) :
    (toRelationships rels).1 = (rels.filter keepRelationship).map buildRelationship
    ∧ (∀ r ∈ rels, (lookupRelationship r.Typ).1 = false →
        RelWarn.unsupported r ∈ (toRelationships rels).2) := by
  induction rels with
  | nil => exact ⟨rfl, by intro r h; cases h⟩
  | cons r t ih =>
    rcases hl : lookupRelationship r.Typ with ⟨ex, rt, c⟩
    have hmem : ∀ r' ∈ t, (lookupRelationship r'.Typ).1 = false →
        RelWarn.unsupported r' ∈ (toRelationships (r :: t)).2 := by
      intro r' hr' hf
      have base := ih.2 r' hr' hf
      cases ex
      · simp [toRelationships, hl]
        right
        exact base
      · rcases hv : isValidExternalRelationshipDocument r with ⟨v, err⟩
        cases err
        · simpa [toRelationships, hl, hv] using base
        · simpa [toRelationships, hl, hv] using base
    constructor
    · cases ex
      · have hk : keepRelationship r = false := by
          simp [keepRelationship, hl]
        simp [toRelationships, hl, List.filter_cons, hk, ih.1]
      · rcases hv : isValidExternalRelationshipDocument r with ⟨v, err⟩
        cases err
        · have hk : keepRelationship r = true := by
            simp [keepRelationship, hl, hv]
          have hb : buildRelationship r =
              { SpdxElementID := model.ElementID r.From.ID
                RelationshipType := rt
                RelatedSpdxElement :=
                  if v then model.DocElementID r.To.ID else model.ElementID r.To.ID
                Comment := c } := by
            simp [buildRelationship, hl, hv]
          cases v <;>
            simp [toRelationships, hl, hv, List.filter_cons, hk, hb, ih.1]
        · have hk : keepRelationship r = false := by
            simp [keepRelationship, hl, hv]
          simp [toRelationships, hl, hv, List.filter_cons, hk, ih.1]
    · intro r' hr' hf
      rcases List.mem_cons.mp hr' with h | h
      · subst h
        rw [hl] at hf
        simp at hf
        subst hf
        simp [toRelationships, hl]
      · exact hmem r' h hf

/-- Claim C3 witness: on a concrete list containing an unsupported
relationship between two kept ones, the output is the filtered
projection and the unsupported relationship is warned about. -/
theorem c3_witness :
    (toRelationships c3rels).1 = (c3rels.filter keepRelationship).map buildRelationship
    ∧ RelWarn.unsupported c3bad ∈ (toRelationships c3rels).2 :=
  ⟨(c3_unsupported_dropped_order_preserved c3rels).1,
   (c3_unsupported_dropped_order_preserved c3rels).2 c3bad (by decide) (by decide)⟩

/-- Claim C8: a package record's `HasFiles` is exactly
`fileIDsForPackage` of its SPDX ID over the relationship list handed to
`toPackages`, and `fileIDsForPackage` is the order-preserving
filter-and-map of the contains-package-to-coordinates relationships. -/
theorem c8_hasFiles_spec :
    (∀ (relationships : List artifact.Relationship) (p : pkg.Package)
        (mp : model.Package),
      toPackageRecord relationships p = some mp →
      mp.HasFiles = fileIDsForPackage (model.ElementID p.id) relationships)
    ∧ (∀ (packageSpdxID : String) (relationships : List artifact.Relationship),
        fileIDsForPackage packageSpdxID relationships =
          (relationships.filter (specContainsFileRel packageSpdxID)).map
            (fun r => model.ElementID r.To.ID)) := by
  constructor
  · intro relationships p mp h
    simp only [toPackageRecord] at h
    split at h
    · split at h
      · split at h <;> (simp only [Option.some.injEq] at h; subst h; rfl)
      · cases h
    · simp only [Option.some.injEq] at h
      subst h
      rfl
  · intro packageSpdxID relationships
    induction relationships with
    | nil => rfl
    | cons r t ih =>
      by_cases h₁ : r.Typ = artifact.ContainsRelationship
      · cases hFrom : r.From with
        | pkg fid =>
          cases hTo : r.To with
          | coordinates cc =>
            by_cases h₄ : model.ElementID fid = packageSpdxID <;>
              simp [fileIDsForPackage, specContainsFileRel, List.filter_cons,
                h₁, hFrom, hTo, h₄, artifact.Endpoint.isPackage,
                artifact.Endpoint.isCoordinates, artifact.Endpoint.ID, ih]
          | pkg q =>
            simp [fileIDsForPackage, specContainsFileRel, List.filter_cons,
              h₁, hFrom, hTo, artifact.Endpoint.isPackage,
              artifact.Endpoint.isCoordinates, artifact.Endpoint.ID, ih]
          | externalRef e =>
            simp [fileIDsForPackage, specContainsFileRel, List.filter_cons,
              h₁, hFrom, hTo, artifact.Endpoint.isPackage,
              artifact.Endpoint.isCoordinates, artifact.Endpoint.ID, ih]
        | coordinates cc =>
          simp [fileIDsForPackage, specContainsFileRel, List.filter_cons,
            h₁, hFrom, artifact.Endpoint.isPackage, artifact.Endpoint.ID, ih]
        | externalRef e =>
          simp [fileIDsForPackage, specContainsFileRel, List.filter_cons,
            h₁, hFrom, artifact.Endpoint.isPackage, artifact.Endpoint.ID, ih]
      · simp [fileIDsForPackage, specContainsFileRel, List.filter_cons, h₁, ih]

/-- Claim C8 witness: a package whose only files come from `contains`
relationships to two distinct coordinates gets exactly those two file
identifiers, in relationship-sequence order. -/
theorem c8_witness :
    c8mp.HasFiles = fileIDsForPackage (model.ElementID c8pkg.id) c8rels
    ∧ fileIDsForPackage "SPDXRef-p1" c8rels
        = (c8rels.filter (specContainsFileRel "SPDXRef-p1")).map
            (fun r => model.ElementID r.To.ID)
    ∧ fileIDsForPackage "SPDXRef-p1" c8rels = ["SPDXRef-/a@", "SPDXRef-/b@fs2"] :=
  ⟨c8_hasFiles_spec.1 c8rels c8pkg c8mp (by decide),
   c8_hasFiles_spec.2 "SPDXRef-p1" c8rels, by decide⟩

/-- Totality: `toPackageRecord` succeeds whenever a Java-typed package really
carries Java metadata. -/
theorem toPackageRecord_isSome (relationships : List artifact.Relationship)
    (p : pkg.Package)
    (h : p.MetadataType = pkg.JavaMetadataType → p.Metadata.isJava = true) :
    (toPackageRecord relationships p).isSome := by
  simp only [toPackageRecord]
  split
  · next hj =>
    cases hm : p.Metadata with
    | java jm =>
      split
      · split <;> simp
      · next x heq => cases heq
    | other =>
      have hx := h hj
      rw [hm] at hx
      simp [pkg.Metadata.isJava] at hx
  · simp

/-- Totality: `toPackagesList` succeeds when every record does. -/
theorem toPackagesList_isSome (relationships : List artifact.Relationship)
    (ps : List pkg.Package)
    (h : ∀ p ∈ ps, (toPackageRecord relationships p).isSome) :
    (toPackagesList relationships ps).isSome := by
  induction ps with
  | nil => rfl
  | cons p t ih =>
    obtain ⟨mp, hmp⟩ := Option.isSome_iff_exists.mp (h p (List.mem_cons_self p t))
    obtain ⟨mps, hmps⟩ :=
      Option.isSome_iff_exists.mp (ih (fun q hq => h q (List.mem_cons_of_mem p hq)))
    simp [toPackagesList, hmp, hmps]

/-- Claim C6: whenever every Java-typed package actually carries Java
metadata, both sides of the conflicted document assembly evaluate
totally and return a document. -/
theorem c6_total_conversion (s : sbom.SBOM) (now : String)
    (h : ∀ p ∈ s.Artifacts.PackageCatalog,
        p.MetadataType = pkg.JavaMetadataType → p.Metadata.isJava = true) :
    (toFormatModelHEAD s now).isSome ∧ (toFormatModelStabilized s now).isSome := by
  have hp : ∀ rels : List artifact.Relationship,
      (toPackages s.Artifacts.PackageCatalog rels).isSome := by
    intro rels
    apply toPackagesList_isSome
    intro p hmem
    apply toPackageRecord_isSome
    apply h
    exact (List.perm_insertionSort
      (fun a b => pkg.pkgLess b a = false) s.Artifacts.PackageCatalog).mem_iff.mp hmem
  constructor
  · obtain ⟨ps, hps⟩ := Option.isSome_iff_exists.mp (hp s.Relationships)
    simp [toFormatModelHEAD, hps]
  · obtain ⟨ps, hps⟩ := Option.isSome_iff_exists.mp (hp s.RelationshipsSorted)
    simp [toFormatModelStabilized, hps]

/-- Claim C6 witness: a concrete SBOM with a digest-bearing Java package
and a plain package converts to a document on both conflict sides. -/
theorem c6_witness :
    (toFormatModelHEAD c6sbom "t").isSome
    ∧ (toFormatModelStabilized c6sbom "t").isSome :=
  c6_total_conversion c6sbom "t" (by decide)

/-- Claim C2 (amended: the relationship's `from` endpoint must not itself
be an external reference): a described-by relationship to an external
reference whose checksum algorithm uppercases to `SHA1` yields exactly
one external-document-reference entry and one relationship record in the
document-qualified form, while the same relationship with algorithm
`sha256` yields neither. -/
theorem c2_described_by_sha1_external :
    (∀ (f : artifact.Endpoint) (e : rekor.ExternalRef),
      f.isExternalRef = false →
      toChecksumAlgorithm e.SpdxRef.Alg = "SHA1" →
      (toExternalDocumentRefs
          [{ From := f, To := .externalRef e, Typ := artifact.DescribedByRelationship }]).1
        = [{ ExternalDocumentID := model.DocElementID e.id
             Checksum := { Algorithm := "SHA1", ChecksumValue := e.SpdxRef.Checksum }
             SpdxDocument := e.SpdxRef.URI }]
      ∧ (toRelationships
          [{ From := f, To := .externalRef e, Typ := artifact.DescribedByRelationship }]).1
        = [{ SpdxElementID := model.ElementID f.ID
             RelationshipType := spdxhelpers.DescribedByRelationship
             RelatedSpdxElement := model.DocElementID e.id
             Comment := "" }])
    ∧ (∀ (f : artifact.Endpoint) (e : rekor.ExternalRef),
      e.SpdxRef.Alg = "sha256" →
      (toExternalDocumentRefs
          [{ From := f, To := .externalRef e, Typ := artifact.DescribedByRelationship }]).1 = []
      ∧ (toRelationships
          [{ From := f, To := .externalRef e, Typ := artifact.DescribedByRelationship }]).1 = []) := by
  have hlk : lookupRelationship artifact.DescribedByRelationship
      = (true, spdxhelpers.DescribedByRelationship, "") := by decide
  constructor
  · intro f e hf halg
    have hval : isValidExternalRelationshipDocument
        { From := f, To := .externalRef e, Typ := artifact.DescribedByRelationship }
        = (true, none) := by
      cases f with
      | externalRef q => simp [artifact.Endpoint.isExternalRef] at hf
      | pkg pid => simp [isValidExternalRelationshipDocument, halg]
      | coordinates cc => simp [isValidExternalRelationshipDocument, halg]
    constructor
    · simp [toExternalDocumentRefs, hval, halg, artifact.Endpoint.ID,
        rekor.ExternalRef.ID]
    · simp [toRelationships, hlk, hval, artifact.Endpoint.ID, rekor.ExternalRef.ID]
  · intro f e halg
    have hup : toChecksumAlgorithm e.SpdxRef.Alg = "SHA256" := by
      rw [halg]
      decide
    cases f with
    | externalRef q =>
      constructor
      · simp [toExternalDocumentRefs, isValidExternalRelationshipDocument]
      · simp [toRelationships, hlk, isValidExternalRelationshipDocument]
    | pkg pid =>
      have hval : isValidExternalRelationshipDocument
          { From := .pkg pid, To := .externalRef e, Typ := artifact.DescribedByRelationship }
          = (false, some ("syft cannot handle an ExternalRef with relationship type: "
              ++ artifact.DescribedByRelationship)) := by
        simp [isValidExternalRelationshipDocument, hup]
      constructor
      · simp [toExternalDocumentRefs, hval]
      · simp [toRelationships, hlk, hval]
    | coordinates cc =>
      have hval : isValidExternalRelationshipDocument
          { From := .coordinates cc, To := .externalRef e,
            Typ := artifact.DescribedByRelationship }
          = (false, some ("syft cannot handle an ExternalRef with relationship type: "
              ++ artifact.DescribedByRelationship)) := by
        simp [isValidExternalRelationshipDocument, hup]
      constructor
      · simp [toExternalDocumentRefs, hval]
      · simp [toRelationships, hlk, hval]

/-- Claim C2 witness: a mixed-case `sHa1` external reference yields the
single entry and single document-qualified record, and a `sha256` one
yields neither. -/
theorem c2_witness :
    ((toExternalDocumentRefs
        [{ From := .pkg "p", To := .externalRef c2w1,
           Typ := artifact.DescribedByRelationship }]).1
      = [{ ExternalDocumentID := model.DocElementID c2w1.id
           Checksum := { Algorithm := "SHA1", ChecksumValue := c2w1.SpdxRef.Checksum }
           SpdxDocument := c2w1.SpdxRef.URI }]
    ∧ (toRelationships
        [{ From := .pkg "p", To := .externalRef c2w1,
           Typ := artifact.DescribedByRelationship }]).1
      = [{ SpdxElementID := model.ElementID (artifact.Endpoint.pkg "p").ID
           RelationshipType := spdxhelpers.DescribedByRelationship
           RelatedSpdxElement := model.DocElementID c2w1.id
           Comment := "" }])
    ∧ ((toExternalDocumentRefs
        [{ From := .pkg "p", To := .externalRef c2w2,
           Typ := artifact.DescribedByRelationship }]).1 = []
    ∧ (toRelationships
        [{ From := .pkg "p", To := .externalRef c2w2,
           Typ := artifact.DescribedByRelationship }]).1 = []) :=
  ⟨c2_described_by_sha1_external.1 (.pkg "p") c2w1 (by decide) (by decide),
   c2_described_by_sha1_external.2 (.pkg "p") c2w2 (by decide)⟩

/-- Claim C5 witness: a concrete from-external relationship is dropped
from both outputs and reported with the dedicated FROM error. -/
theorem c5_witness :
    (toRelationships
        [{ From := .externalRef ⟨"w5", ⟨"sha1", "x", "u"⟩⟩,
           To := .pkg "q", Typ := artifact.ContainsRelationship }]).1 = []
    ∧ (toExternalDocumentRefs
        [{ From := .externalRef ⟨"w5", ⟨"sha1", "x", "u"⟩⟩,
           To := .pkg "q", Typ := artifact.ContainsRelationship }]).1 = []
    ∧ isValidExternalRelationshipDocument
        { From := .externalRef ⟨"w5", ⟨"sha1", "x", "u"⟩⟩,
          To := .pkg "q", Typ := artifact.ContainsRelationship }
      = (false, some "syft cannot handle an ExternalRef in the FROM field of a relationship")
    ∧ ("syft cannot handle an ExternalRef in the FROM field of a relationship" : String)
      ≠ "syft cannot handle an ExternalRef with relationship type: "
          ++ artifact.DescribedByRelationship :=
  c5_from_external_always_dropped ⟨"w5", ⟨"sha1", "x", "u"⟩⟩ (.pkg "q")
    artifact.ContainsRelationship [] []
